import Mathlib

/-!
Shallow embedding of the order-dispatch core of the Gebeta delivery backend:
the Order ledger (schema hooks in `src/models/Order.js`), the order
controllers (`src/models/FoodMenu.js`, second document: orderController),
the socket router (`src/unnamed/part_003`), the alternative socket server
(`src/unnamed/part_002`) and the delivery-fee estimator
(`src/unnamed/part_001`, `computeDeliveryFee`).

Numbers are modelled as `Nat` (identifiers), `ℚ` (currency/coordinates/
distances, the code only adds, multiplies, divides and takes `Math.ceil`)
and `ℤ` (the rounded fee).  Database collections are lists of order
documents; Mongo query/update operations are modelled as explicit functions
on those lists, including the `pre('findOneAndUpdate')` and
`pre('find'/'findOne')` middleware registered on the order schema.
External effects (the OSRM routing oracle, the Chapa verification call,
socket emissions) are passed in and returned as explicit data.
-/

/-- Order status enum of `orderSchema.orderStatus`
(`src/models/Order.js` line 85-90). -/
inductive OrderStatus
  | Pending
  | Preparing
  | Cooked
  | Delivering
  | Completed
  | Cancelled
deriving DecidableEq, Repr

/-- `STATUS_FLOW` from `src/models/Order.js` lines 19-26: the allowed
order-status transitions. -/
def STATUS_FLOW : OrderStatus → List OrderStatus
  | .Pending => [.Cooked, .Cancelled]
  | .Preparing => [.Cooked, .Cancelled]
  | .Cooked => [.Delivering, .Cancelled]
  | .Delivering => [.Completed, .Cancelled]
  | .Completed => []
  | .Cancelled => []

/-- `typeOfOrder` enum (`src/models/Order.js` lines 55-60). -/
inductive OrderType
  | Delivery
  | Takeaway
deriving DecidableEq, Repr

/-- `deliveryVehicle` enum (`src/models/Order.js` lines 61-67). -/
inductive Vehicle
  | Car
  | Motor
  | Bicycle
deriving DecidableEq, Repr

/-- Values the code assigns to `order.transaction.status`.  Note that
`chapaWebhook` assigns the string `"Failed"` even though the
`transactionSchema` enum (`src/models/Order.js` lines 9-13) only lists
`"Pending"` and `"Paid"`; `Failed` is therefore representable as a runtime
value but rejected by save-time validation (`txStatusEnumOk`). -/
inductive TxStatus
  | Pending
  | Paid
  | Failed
deriving DecidableEq, Repr

/-- The `transactionSchema` enum check (`src/models/Order.js` line 11:
`enum: ["Pending", "Paid"]`), applied by Mongoose validation on `save()`. -/
def txStatusEnumOk : TxStatus → Bool
  | .Pending => true
  | .Paid => true
  | .Failed => false

/-- A latitude/longitude pair, as used for `restaurantLocation` and
`destinationLocation`. -/
structure Coord where
  lat : ℚ
  lng : ℚ
deriving DecidableEq, Repr

/-- The fields of an order document relevant to the dispatch core
(`orderSchema` in `src/models/Order.js`). -/
structure OrderDoc where
  id : Nat
  userId : Nat
  restaurantId : Nat
  typeOfOrder : OrderType
  deliveryVehicle : Option Vehicle
  orderStatus : OrderStatus
  deliveryId : Option Nat
  orderCode : String
  userVerificationCode : Option String
  deliveryVerificationCode : Option String
  txStatus : TxStatus
  txRefId : Option String
deriving DecidableEq, Repr

deriving instance DecidableEq for Except

/-- Which read operation a Mongo query is (both hooks are keyed on it). -/
inductive ReadOp
  | find
  | findOne
deriving DecidableEq, Repr

/-- The combined effect of the two query middlewares registered in
`src/models/Order.js` lines 318-332 on whether an order document is visible
to a read: the first hook (`pre("find")`) adds the
`transaction.status = "Paid"` condition unconditionally and applies only to
`find`; the second hook (`pre(["find","findOne"])`) adds the same condition
unless the query options carry `bypassPaidFilter`. -/
def orderVisible (op : ReadOp) (bypass : Bool) (o : OrderDoc) : Bool :=
  (match op with
   | .find => decide (o.txStatus = .Paid)
   | .findOne => true)
  && (bypass || decide (o.txStatus = .Paid))

/-- `Order.find(filter)` with the read middlewares applied. -/
def dbFind (bypass : Bool) (p : OrderDoc → Bool) (db : List OrderDoc) : List OrderDoc :=
  db.filter (fun o => p o && orderVisible .find bypass o)

/-- `Order.findOne(filter)` / `Order.findById` with the read middlewares
applied (returns the first match). -/
def dbFindOne (bypass : Bool) (p : OrderDoc → Bool) (db : List OrderDoc) : Option OrderDoc :=
  db.find? (fun o => p o && orderVisible .findOne bypass o)

/-- Replace the first document matching `q` by its image under `f`
(the write step of `findOneAndUpdate`). -/
def replaceFirst (q : OrderDoc → Bool) (f : OrderDoc → OrderDoc) : List OrderDoc → List OrderDoc
  | [] => []
  | o :: rest => if q o then f o :: rest else o :: replaceFirst q f rest

/-- `document.save()`: replace the documents carrying the saved `_id`
(ids are unique in any well-formed collection). -/
def saveDoc (db : List OrderDoc) (o' : OrderDoc) : List OrderDoc :=
  db.map (fun o => if o.id = o'.id then o' else o)

section FeeEstimator

/-- One entry of the per-vehicle `rateConfig` table in
`src/unnamed/part_001` (`computeDeliveryFee`). -/
structure Rate where
  base : ℚ
  perKm : ℚ
deriving DecidableEq, Repr

/-- The `rateConfig` lookup of `computeDeliveryFee` with the source's
default fares (the `process.env` overrides unset): Car 150 + 13/km,
Motor 100 + 10/km, Bicycle 50 + 10/km.  A JavaScript property access on a
key outside the table yields `undefined`, i.e. `none`. -/
def rateConfig (v : String) : Option Rate :=
  if v = "Car" then some { base := 150, perKm := 13 }
  else if v = "Motor" then some { base := 100, perKm := 10 }
  else if v = "Bicycle" then some { base := 50, perKm := 10 }
  else none

/-- The successful return value of `computeDeliveryFee`. -/
structure FeeResult where
  deliveryFee : ℤ
  distanceKm : ℚ
  distanceInMeters : ℚ
  durationInSeconds : Option ℚ
deriving DecidableEq, Repr

/-- `computeDeliveryFee` from `src/unnamed/part_001`, with the single call
to the OSRM routing oracle replaced by its reported road distance
(`oracleDistanceMeters`, `none` when the call fails or the route is
missing) and duration.  Faithful details: the destination check
`!destinationLocation?.lat || !destinationLocation?.lng` also rejects a
zero coordinate (JavaScript falsiness); `!distanceInMeters` likewise
rejects a zero distance; the vehicle is looked up in `rateConfig` and an
absent key raises the invalid-vehicle error; the fee is
`Math.ceil(base + perKm * distanceKm)` with `distanceKm = meters / 1000`. -/
def computeDeliveryFee (deliveryVehicle : Option String) (destinationLocation : Option Coord)
    (oracleDistanceMeters : Option ℚ) (oracleDurationSeconds : Option ℚ) :
    Except String FeeResult :=
  match destinationLocation with
  | none => .error "Delivery coordinates are required."
  | some d =>
    if d.lat = 0 ∨ d.lng = 0 then .error "Delivery coordinates are required."
    else
      match oracleDistanceMeters with
      | none => .error "Failed to calculate delivery distance."
      | some m =>
        if m = 0 then .error "Failed to calculate delivery distance."
        else
          match deliveryVehicle.bind rateConfig with
          | none => .error "Invalid vehicle type"
          | some r =>
            .ok { deliveryFee := Int.ceil (r.base + r.perKm * (m / 1000))
                  distanceKm := m / 1000
                  distanceInMeters := m
                  durationInSeconds := oracleDurationSeconds }

/-- The successful response body of the `estimateDeliveryFee` endpoint. -/
structure EstimateResponse where
  deliveryFee : ℤ
  distanceKm : ℚ
  distanceInMeters : ℚ
  durationInSeconds : Option ℚ
  vehicleType : String
deriving DecidableEq, Repr

/-- The allowed vehicle list checked by `estimateDeliveryFee`
(`src/models/FoodMenu.js` line 712). -/
def allowedVehicles : List String := ["Car", "Motor", "Bicycle"]

/-- `estimateDeliveryFee` (`src/models/FoodMenu.js` lines 697-737).
`restaurantCoordinates` is the result of the `Restaurant.findById` lookup
(`none` when the restaurant or its coordinates are missing).  Crucially,
the source passes the vehicle to `computeDeliveryFee` under the key
`vehicleType`, while `computeDeliveryFee` destructures the key
`deliveryVehicle`; the callee therefore sees `undefined` for the vehicle,
which is modelled by passing `none` in that position. -/
def estimateDeliveryFee (restaurantId : Option Nat) (restaurantCoordinates : Option Coord)
    (vehicleType : Option String) (destination : Option Coord)
    (oracleDistanceMeters : Option ℚ) (oracleDurationSeconds : Option ℚ) :
    Except String EstimateResponse :=
  match restaurantId with
  | none => .error "restaurantId is required."
  | some _ =>
    match restaurantCoordinates with
    | none => .error "Restaurant location not found."
    | some _ =>
      if !(allowedVehicles.contains (vehicleType.getD "")) then
        .error "vehicleType must be one of Car, Motor, Bicycle."
      else
        match computeDeliveryFee none destination oracleDistanceMeters oracleDurationSeconds with
        | .error e => .error e
        | .ok r =>
          .ok { deliveryFee := r.deliveryFee
                distanceKm := r.distanceKm
                distanceInMeters := r.distanceInMeters
                durationInSeconds := r.durationInSeconds
                vehicleType := vehicleType.getD "" }

end FeeEstimator

section LedgerUpdates

/-- The update documents the order controllers pass to
`Order.findOneAndUpdate`: every caller only ever names the keys
`orderStatus`, `deliveryId` and `deliveryVerificationCode` (plus the
automatic `updatedAt`, which the hook allows). -/
structure UpdateDoc where
  orderStatus : Option OrderStatus
  deliveryId : Option Nat
  deliveryVerificationCode : Option String
deriving DecidableEq, Repr

/-- Apply a (sanitised) update document to an order, as the `$set` write. -/
def applyUpdate (u : UpdateDoc) (o : OrderDoc) : OrderDoc :=
  { o with
    orderStatus := u.orderStatus.getD o.orderStatus
    deliveryId := match u.deliveryId with
      | some d => some d
      | none => o.deliveryId
    deliveryVerificationCode := match u.deliveryVerificationCode with
      | some c => some c
      | none => o.deliveryVerificationCode }

/-- The `{_id: orderId}` query used by `findById`-style lookups. -/
def idQuery (oid : Nat) (o : OrderDoc) : Bool := o.id == oid

/-- The advisory "does this courier already hold a non-terminal order"
query used by both claim handlers:
`{deliveryId, orderStatus: {$nin: ['Completed','Cancelled']}}`. -/
def courierActiveQuery (cid : Nat) (o : OrderDoc) : Bool :=
  o.deliveryId == some cid
    && !(o.orderStatus == .Completed || o.orderStatus == .Cancelled)

/-- The conditional-write query of the REST `acceptOrder`:
`{_id, orderStatus:'Cooked', typeOfOrder:'Delivery', deliveryId:{$exists:false}}`. -/
def claimQuery (oid : Nat) (o : OrderDoc) : Bool :=
  o.id == oid && o.orderStatus == .Cooked
    && o.typeOfOrder == .Delivery && o.deliveryId == none

/-- `Order.findOneAndUpdate(query, update)` together with the
`pre("findOneAndUpdate")` middleware of `src/models/Order.js`
lines 264-316.  The hook: (1) loads `docToUpdate` with
`this.model.findOne(this.getQuery())` — that inner `findOne` passes no
`bypassPaidFilter`, so the Paid read filter applies, and a missing match
aborts with "Order not found"; (2) rejects any update naming a field
outside `["orderStatus","deliveryId","updatedAt"]` — of the keys callers
use, only `deliveryVerificationCode` is outside the list; (3) generates a
fresh delivery verification code when the update changes `deliveryId`;
(4) validates the status change against `STATUS_FLOW`, rejecting terminal
current statuses.  Only then does the conditional write itself run,
atomically updating the first document matching the raw query.  On any
hook error the collection is untouched.  `freshCode` stands for the value
`generateVerificationCode()` would produce in step (3). -/
def findOneAndUpdate (q : OrderDoc → Bool) (u : UpdateDoc) (freshCode : String)
    (db : List OrderDoc) : Except String (Option OrderDoc) × List OrderDoc :=
  match dbFindOne false q db with
  | none => (.error "Order not found", db)
  | some docToUpdate =>
    if u.deliveryVerificationCode.isSome then
      (.error "Cannot update fields: deliveryVerificationCode after order creation", db)
    else
      let u' : UpdateDoc :=
        match u.deliveryId with
        | some d =>
          if some d ≠ docToUpdate.deliveryId then
            { u with deliveryVerificationCode := some freshCode }
          else u
        | none => u
      let statusCheck : Except String Unit :=
        match u'.orderStatus with
        | none => .ok ()
        | some ns =>
          if docToUpdate.orderStatus = .Completed ∨ docToUpdate.orderStatus = .Cancelled then
            .error "Cannot change status of a completed or cancelled order"
          else if ns ∈ STATUS_FLOW docToUpdate.orderStatus then .ok ()
          else .error "Invalid status transition"
      match statusCheck with
      | .error e => (.error e, db)
      | .ok _ =>
        match db.find? q with
        | none => (.ok none, db)
        | some target => (.ok (some (applyUpdate u' target)), replaceFirst q (applyUpdate u') db)

/-- `updateOrderStatus` (`src/models/FoodMenu.js` lines 181-227): after the
presence check on `orderId` and `status`, it runs
`Order.findOneAndUpdate({_id}, {$set:{orderStatus:status}})`, so the
`pre("findOneAndUpdate")` middleware is the transition guard. -/
def updateOrderStatus (orderId : Option Nat) (status : Option OrderStatus)
    (freshCode : String) (db : List OrderDoc) :
    Except String (Option OrderDoc) × List OrderDoc :=
  match orderId, status with
  | some oid, some s =>
    findOneAndUpdate (idQuery oid)
      { orderStatus := some s, deliveryId := none, deliveryVerificationCode := none }
      freshCode db
  | _, _ => (.error "orderId and status are required.", db)

/-- `acceptOrder` (`src/models/FoodMenu.js` lines 516-576): the REST claim
handler.  An advisory check for an active order of this courier precedes
the conditional write, whose query requires the order to still be Cooked,
delivery-mode, and unassigned; the update names `deliveryId` and
`deliveryVerificationCode`.  A `null` result maps to the
"not available" conflict; a hook error propagates as a thrown error. -/
def acceptOrder (deliveryPersonId : Nat) (orderId : Option Nat) (freshCode hookCode : String)
    (db : List OrderDoc) : Except String (String × String) × List OrderDoc :=
  match orderId with
  | none => (.error "Order ID is required.", db)
  | some oid =>
    match dbFindOne false (courierActiveQuery deliveryPersonId) db with
    | some _ =>
      (.error "You already have an active order. Complete or cancel it before accepting a new one.", db)
    | none =>
      match findOneAndUpdate (claimQuery oid)
          { orderStatus := none, deliveryId := some deliveryPersonId,
            deliveryVerificationCode := some freshCode }
          hookCode db with
      | (.error e, db') => (.error e, db')
      | (.ok none, db') => (.error "Order is not available for acceptance.", db')
      | (.ok (some o), db') => (.ok (o.orderCode, o.deliveryVerificationCode.getD ""), db')

end LedgerUpdates

section SocketRouter

/-- The connected delivery person attached to a socket by the JWT
middleware of `src/unnamed/part_003` (`socket.user`): its id and vehicle
capability (`deliveryMethod`). -/
structure Courier where
  id : Nat
  deliveryMethod : Vehicle
deriving DecidableEq, Repr

/-- The success payload returned to the courier by the socket
`acceptOrder` handler. -/
structure AcceptPayload where
  orderCode : String
  pickUpVerification : String
deriving DecidableEq, Repr

/-- The `socket.on('acceptOrder')` handler of `src/unnamed/part_003`
lines 256-350.  Inside a session it (1) checks the courier holds no
non-terminal order, (2) loads the target order by id (`findById`, so the
Paid read filter applies), (3) checks the courier's vehicle equals the
order's `deliveryVehicle`, then (4) sets `deliveryVerificationCode` and
`deliveryId` on the document and `save()`s it.  The save path does not go
through the `pre("findOneAndUpdate")` middleware, and the handler never
checks that the order is still unassigned or still Cooked, nor does it
change `orderStatus`. -/
def socketAcceptOrder (c : Courier) (orderId : Nat) (freshCode : String)
    (db : List OrderDoc) : Except String AcceptPayload × List OrderDoc :=
  match dbFindOne false (courierActiveQuery c.id) db with
  | some _ =>
    (.error "You already have an active order. Complete or cancel it before accepting a new one.", db)
  | none =>
    match dbFindOne false (idQuery orderId) db with
    | none => (.error "Order is not available for acceptance.", db)
    | some o =>
      if o.deliveryVehicle ≠ some c.deliveryMethod then
        (.error "You are not eligible to accept the order", db)
      else
        let o' := { o with deliveryVerificationCode := some freshCode, deliveryId := some c.id }
        (.ok { orderCode := o'.orderCode, pickUpVerification := freshCode }, saveDoc db o')

/-- One ephemeral active-assignment value: `{orderId, userId}` as stored in
the `activeDeliveryOrders` map of `src/unnamed/part_003`. -/
abbrev ActiveEntry := Nat × Nat

/-- `Map.get` on an insertion-ordered association list (the JavaScript
`Map` the router keeps, keyed by delivery-person id). -/
def cacheGet (cache : List (Nat × ActiveEntry)) (k : Nat) : Option ActiveEntry :=
  match cache with
  | [] => none
  | e :: rest => if e.1 = k then some e.2 else cacheGet rest k

/-- `Map.has`. -/
def cacheHas (cache : List (Nat × ActiveEntry)) (k : Nat) : Bool :=
  (cacheGet cache k).isSome

/-- `Map.set`: overwrite in place when the key exists, append otherwise. -/
def cacheSet (cache : List (Nat × ActiveEntry)) (k : Nat) (v : ActiveEntry) :
    List (Nat × ActiveEntry) :=
  if cacheHas cache k then cache.map (fun e => if e.1 = k then (k, v) else e)
  else cache ++ [(k, v)]

/-- `Map.delete` of every entry under key `k`. -/
def cacheDelete (cache : List (Nat × ActiveEntry)) (k : Nat) : List (Nat × ActiveEntry) :=
  cache.filter (fun e => !(e.1 == k))

/-- The `activeOrders.forEach` loop of `populateActiveOrders`
(`src/unnamed/part_003` lines 58-67): each order with a present
`deliveryId` (and, by the query, a populated `userId`) is stored in the
cache under its delivery person's id. -/
def loadActive : List OrderDoc → List (Nat × ActiveEntry) → List (Nat × ActiveEntry)
  | [], cache => cache
  | o :: rest, cache =>
    match o.deliveryId with
    | some d => loadActive rest (cacheSet cache d (o.id, o.userId))
    | none => loadActive rest cache

/-- The database query of `populateActiveOrders`:
`Order.find({orderStatus:'Delivering', deliveryId:{$exists:true,$ne:null}})`,
to which both read middlewares add the Paid condition. -/
def deliveringQuery (o : OrderDoc) : Bool :=
  decide (o.orderStatus = .Delivering) && o.deliveryId.isSome && orderVisible .find false o

/-- `populateActiveOrders` (`src/unnamed/part_003` lines 50-84), run at
process start with an empty cache.  (The trailing loop that asks already
connected couriers for a location refresh touches no state and reaches no
socket at startup, when `deliverySockets` is empty.) -/
def populateActiveOrders (db : List OrderDoc) : List (Nat × ActiveEntry) :=
  loadActive (db.filter deliveringQuery) []

/-- What a courier connection observes from the `Delivery_Person` branch of
the connection handler: the active order seeded onto the socket, and how
many `requestLocationUpdate` events were emitted to it. -/
structure ConnectRun where
  seededOrder : Option ActiveEntry
  locationRequests : Nat
deriving DecidableEq, Repr

/-- The `Delivery_Person` branch of `io.on('connection')`
(`src/unnamed/part_003` lines 172-205): an unrecognised `deliveryMethod`
is rejected and disconnected (modelled as `none`); otherwise, when the
active-assignment cache holds an entry for this courier, it is copied onto
the socket and exactly one `requestLocationUpdate` is emitted; with no
cached entry nothing is seeded or emitted. -/
def courierConnect (cache : List (Nat × ActiveEntry)) (courierId : Nat)
    (deliveryMethod : Option Vehicle) : ConnectRun :=
  match deliveryMethod with
  | none => { seededOrder := none, locationRequests := 0 }
  | some _ =>
    match cacheGet cache courierId with
    | some entry => { seededOrder := some entry, locationRequests := 1 }
    | none => { seededOrder := none, locationRequests := 0 }

/-- The outcome of the socket `completeOrder` handler: callback result,
the collection, and the two ephemeral per-courier maps. -/
structure CompleteRun where
  result : Except String Unit
  db : List OrderDoc
  activeDeliveryOrders : List (Nat × ActiveEntry)
  lastDeliveryLocations : List (Nat × Coord)
deriving DecidableEq, Repr

/-- The `socket.on('completeOrder')` handler of `src/unnamed/part_003`
lines 353-393.  It loads the order by id (Paid read filter applies) and
throws unless the requester is the assigned courier — when `deliveryId` is
absent the `.toString()` access itself throws, which the catch turns into
an error callback.  On the happy path it sets `orderStatus = 'Completed'`,
`save()`s (no transition validation runs on the save path), and deletes
the courier's entries from the two ephemeral maps.  No verification code
and no current-status check appear anywhere in the handler. -/
def completeOrder (c : Courier) (orderId : Nat) (db : List OrderDoc)
    (active : List (Nat × ActiveEntry)) (lastLoc : List (Nat × Coord)) : CompleteRun :=
  match dbFindOne false (idQuery orderId) db with
  | none =>
    { result := .error "Cannot complete this order.", db := db,
      activeDeliveryOrders := active, lastDeliveryLocations := lastLoc }
  | some o =>
    match o.deliveryId with
    | none =>
      { result := .error "TypeError: cannot read toString of undefined", db := db,
        activeDeliveryOrders := active, lastDeliveryLocations := lastLoc }
    | some d =>
      if d = c.id then
        { result := .ok ()
          db := saveDoc db { o with orderStatus := .Completed }
          activeDeliveryOrders := cacheDelete active c.id
          lastDeliveryLocations := lastLoc.filter (fun e => !(e.1 == c.id)) }
      else
        { result := .error "Cannot complete this order.", db := db,
          activeDeliveryOrders := active, lastDeliveryLocations := lastLoc }

end SocketRouter

section PickupAndPayment

/-- `pickUpOrder` (`src/models/FoodMenu.js` lines 362-437): the restaurant
pickup confirmation.  After presence/shape checks on the body it loads the
order by id (Paid read filter), requires delivery mode, requires status
Cooked (with a dedicated message when already Delivering), compares the
submitted code against `order.deliveryVerificationCode`, and finally runs
`Order.findOneAndUpdate({_id},{$set:{orderStatus:'Delivering'}})`.  The
authenticated requester (`req.user`) is never consulted.  `requesterId`
is therefore an unused argument, mirroring the source. -/
def pickUpOrder (requesterId : Nat) (orderId : Option Nat) (code : Option String)
    (db : List OrderDoc) : Except String Unit × List OrderDoc :=
  match orderId, code with
  | some oid, some c =>
    match dbFindOne false (idQuery oid) db with
    | none => (.error "Order not found.", db)
    | some o =>
      if o.typeOfOrder ≠ .Delivery then (.error "Order is not a delivery order.", db)
      else if o.orderStatus = .Delivering then
        (.error "Order has already been picked up.", db)
      else if o.orderStatus ≠ .Cooked then
        (.error "Order must be in Cooked status to be picked up.", db)
      else if o.deliveryVerificationCode ≠ some c then
        (.error "Invalid pickup verification code.", db)
      else
        match findOneAndUpdate (idQuery oid)
            { orderStatus := some .Delivering, deliveryId := none,
              deliveryVerificationCode := none } "000000" db with
        | (.ok (some _), db') => (.ok (), db')
        | (.ok none, db') => (.error "Order not found during update.", db')
        | (.error e, db') => (.error e, db')
  | _, _ => (.error "Order ID and pickup verification code are required.", db)

/-- Ignore `requesterId`: the source never reads `req.user` in
`pickUpOrder`, so the result is the same for every requester. -/
theorem pickUpOrder_requester_irrelevant (r₁ r₂ : Nat) (oid : Option Nat)
    (code : Option String) (db : List OrderDoc) :
    pickUpOrder r₁ oid code db = pickUpOrder r₂ oid code db := rfl

/-- `document.save()` with Mongoose validation: the `transactionSchema`
enum only admits `Pending` and `Paid`, so a document whose transaction
status is `Failed` is rejected with a `ValidationError` and nothing is
written. -/
def saveOrder (db : List OrderDoc) (o' : OrderDoc) : Except String (List OrderDoc) :=
  if txStatusEnumOk o'.txStatus then .ok (saveDoc db o')
  else .error "ValidationError: transaction.status is not a valid enum value"

/-- The observable outcome of one `chapaWebhook` invocation. -/
structure WebhookRun where
  httpStatus : Nat
  db : List OrderDoc
  managerNotified : Bool
deriving DecidableEq, Repr

/-- `chapaWebhook` (`src/models/FoodMenu.js` lines 229-287).  `verifyOk`
is the outcome of the Chapa verification call; `status` is the provider's
reported status from the query string.  The order is loaded with
`bypassPaidFilter: true`, its transaction status is set to `Paid` on
`status === "success"` and to `Failed` otherwise, the provider reference
is recorded, and the document is `save()`d; a save failure is caught and
answered with HTTP 500.  Only on success is the restaurant manager
notified (when the restaurant has one). -/
def chapaWebhook (verifyOk : Bool) (orderId : Nat) (refId : String) (status : String)
    (restaurantHasManager : Bool) (db : List OrderDoc) : WebhookRun :=
  if !verifyOk then { httpStatus := 400, db := db, managerNotified := false }
  else
    match dbFindOne true (idQuery orderId) db with
    | none => { httpStatus := 404, db := db, managerNotified := false }
    | some o =>
      let o' := { o with
        txStatus := if status == "success" then TxStatus.Paid else TxStatus.Failed
        txRefId := some refId }
      match saveOrder db o' with
      | .error _ => { httpStatus := 500, db := db, managerNotified := false }
      | .ok db' =>
        { httpStatus := 200, db := db',
          managerNotified := status == "success" && restaurantHasManager }

end PickupAndPayment

/-- Every rate in the table has a non-negative per-kilometre charge. -/
lemma rateConfig_perKm_nonneg (v : String) (r : Rate) (h : rateConfig v = some r) :
    0 ≤ r.perKm := by
  unfold rateConfig at h
  split at h
  · cases h; norm_num
  · split at h
    · cases h; norm_num
    · split at h
      · cases h; norm_num
      · cases h

/-- With an absent vehicle key, `computeDeliveryFee` can only return an
error: either the destination, the oracle distance, or — in the main
path — the rate-table lookup fails. -/
lemma computeDeliveryFee_none_vehicle (dest : Option Coord) (om od : Option ℚ) :
    ∃ e, computeDeliveryFee none dest om od = .error e := by
  unfold computeDeliveryFee
  match dest with
  | none => exact ⟨_, rfl⟩
  | some d =>
    simp only
    split
    · exact ⟨_, rfl⟩
    · match om with
      | none => exact ⟨_, rfl⟩
      | some m =>
        simp only
        split
        · exact ⟨_, rfl⟩
        · exact ⟨_, rfl⟩

/-- C7: for a fixed vehicle and oracle-reported distance the computed fee
is exactly `⌈base + perKm * distanceKm⌉` (an integer by construction, and
deterministic because `computeDeliveryFee` is a pure function of the
oracle response); for a fixed vehicle the fee is monotone non-decreasing
in the reported distance; and a vehicle key outside the rate table is
rejected with an error. -/
theorem fee_estimator_contract :
    (∀ (v : String) (r : Rate) (dest : Coord) (m : ℚ) (out : FeeResult),
      rateConfig v = some r →
      computeDeliveryFee (some v) (some dest) (some m) none = .ok out →
      out.deliveryFee = Int.ceil (r.base + r.perKm * (m / 1000)))
    ∧ (∀ (v : String) (dest : Coord) (m₁ m₂ : ℚ) (out₁ out₂ : FeeResult),
      computeDeliveryFee (some v) (some dest) (some m₁) none = .ok out₁ →
      computeDeliveryFee (some v) (some dest) (some m₂) none = .ok out₂ →
      m₁ ≤ m₂ → out₁.deliveryFee ≤ out₂.deliveryFee)
    ∧ (∀ (v : String) (dest : Option Coord) (om od : Option ℚ),
      rateConfig v = none → ∃ e, computeDeliveryFee (some v) dest om od = .error e) := by
  refine ⟨?_, ?_, ?_⟩
  · intro v r dest m out hr hok
    simp only [computeDeliveryFee, Option.some_bind, hr] at hok
    split at hok
    · cases hok
    · split at hok
      · cases hok
      · cases hok
        rfl
  · intro v dest m₁ m₂ out₁ out₂ h₁ h₂ hm
    cases hr : rateConfig v with
    | none =>
      simp only [computeDeliveryFee, Option.some_bind, hr] at h₁
      split at h₁ <;> first | cases h₁ | split at h₁ <;> cases h₁
    | some r =>
      simp only [computeDeliveryFee, Option.some_bind, hr] at h₁ h₂
      split at h₁
      · cases h₁
      · split at h₁
        · cases h₁
        · split at h₂
          · cases h₂
          · split at h₂
            · cases h₂
            · cases h₁
              cases h₂
              show Int.ceil (r.base + r.perKm * (m₁ / 1000)) ≤
                Int.ceil (r.base + r.perKm * (m₂ / 1000))
              have hk : 0 ≤ r.perKm := rateConfig_perKm_nonneg v r hr
              have hdiv : m₁ / 1000 ≤ m₂ / 1000 := by
                apply div_le_div_of_nonneg_right hm
                norm_num
              exact Int.ceil_le_ceil
                (add_le_add_left (mul_le_mul_of_nonneg_left hdiv hk) r.base)
  · intro v dest om od hr
    match dest with
    | none => exact ⟨_, rfl⟩
    | some d =>
      simp only [computeDeliveryFee, Option.some_bind, hr]
      split
      · exact ⟨_, rfl⟩
      · match om with
        | none => exact ⟨_, rfl⟩
        | some m =>
          simp only
          split
          · exact ⟨_, rfl⟩
          · exact ⟨_, rfl⟩

/-- C7 witness: the fee equation at Car/2000 m, monotonicity between
2000 m and 3000 m, and rejection of the unknown key "Plane", each obtained
by instantiating `fee_estimator_contract` at concrete inputs. -/
theorem fee_estimator_contract_witness :
    (176 : ℤ) = Int.ceil ((150 : ℚ) + 13 * (2000 / 1000))
    ∧ (176 : ℤ) ≤ (189 : ℤ)
    ∧ ∃ e, computeDeliveryFee (some "Plane") (some ⟨9, 38⟩) (some 1000) none = .error e := by
  have h₁ : computeDeliveryFee (some "Car") (some ⟨9, 38⟩) (some 2000) none =
      .ok ⟨176, 2, 2000, none⟩ := by
    norm_num [computeDeliveryFee, rateConfig]
  have h₂ : computeDeliveryFee (some "Car") (some ⟨9, 38⟩) (some 3000) none =
      .ok ⟨189, 3, 3000, none⟩ := by
    norm_num [computeDeliveryFee, rateConfig]
  refine ⟨?_, ?_, ?_⟩
  · exact fee_estimator_contract.1 "Car" ⟨150, 13⟩ ⟨9, 38⟩ 2000
      ⟨176, 2, 2000, none⟩ (by decide) h₁
  · exact fee_estimator_contract.2.1 "Car" ⟨9, 38⟩ 2000 3000
      ⟨176, 2, 2000, none⟩ ⟨189, 3, 3000, none⟩ h₁ h₂ (by decide)
  · exact fee_estimator_contract.2.2 "Plane" (some ⟨9, 38⟩) (some 1000) none (by decide)

/-- A base sample order document used to build concrete test inputs:
a Paid, Pending, unassigned delivery order. -/
def sampleOrder : OrderDoc :=
  { id := 1, userId := 7, restaurantId := 3, typeOfOrder := .Delivery,
    deliveryVehicle := some .Car, orderStatus := .Pending, deliveryId := none,
    orderCode := "ORD-100001", userVerificationCode := some "111111",
    deliveryVerificationCode := none, txStatus := .Paid, txRefId := none }

/-- If the read middleware passes an order without a bypass, its
transaction is Paid. -/
lemma orderVisible_false_paid (op : ReadOp) (o : OrderDoc)
    (h : orderVisible op false o = true) : o.txStatus = .Paid := by
  cases op <;> simpa [orderVisible] using h

/-- A `find` (plural) read only passes Paid orders even with the bypass
flag, because the first hook is unconditional. -/
lemma orderVisible_find_paid (b : Bool) (o : OrderDoc)
    (h : orderVisible .find b o = true) : o.txStatus = .Paid := by
  rw [orderVisible, Bool.and_eq_true] at h
  simpa using h.1

/-- The transition graph exactly as claim C3 lists it. -/
def claimedTransitions : List (OrderStatus × OrderStatus) :=
  [(.Pending, .Cooked), (.Pending, .Cancelled),
   (.Preparing, .Cooked), (.Preparing, .Cancelled),
   (.Cooked, .Delivering), (.Cooked, .Cancelled),
   (.Delivering, .Completed), (.Delivering, .Cancelled)]

/-- When the current status is terminal, a status update through the
guarded `findOneAndUpdate` path fails and the collection is untouched. -/
lemma updateOrderStatus_terminal (oid : Nat) (target : OrderStatus) (fresh : String)
    (db : List OrderDoc) (o : OrderDoc)
    (h : dbFindOne false (idQuery oid) db = some o)
    (hterm : o.orderStatus = .Completed ∨ o.orderStatus = .Cancelled) :
    updateOrderStatus (some oid) (some target) fresh db =
      (.error "Cannot change status of a completed or cancelled order", db) := by
  simp [updateOrderStatus, findOneAndUpdate, h, hterm]

/-- When the target is not a successor of a non-terminal current status,
the guarded status update fails and the collection is untouched. -/
lemma updateOrderStatus_nonedge (oid : Nat) (target : OrderStatus) (fresh : String)
    (db : List OrderDoc) (o : OrderDoc)
    (h : dbFindOne false (idQuery oid) db = some o)
    (hterm : ¬(o.orderStatus = .Completed ∨ o.orderStatus = .Cancelled))
    (hmem : target ∉ STATUS_FLOW o.orderStatus) :
    updateOrderStatus (some oid) (some target) fresh db =
      (.error "Invalid status transition", db) := by
  simp [updateOrderStatus, findOneAndUpdate, h, hterm, hmem]

/-- C3 (amended): status updates that go through `findOneAndUpdate` — as
every REST status-change handler does — are validated against
`STATUS_FLOW`, which is exactly the claimed transition graph; such an
update succeeds only along an edge from a non-terminal status, and a
rejected update leaves the collection untouched.  (The claim's universal
form is false: the socket `completeOrder` handler writes the status with
`save()`, bypassing this guard — see the counterexample.) -/
theorem statusUpdate_transition_guard :
    ∀ (oid : Nat) (target : OrderStatus) (fresh : String) (db : List OrderDoc) (o : OrderDoc),
      dbFindOne false (idQuery oid) db = some o →
      (∀ s t, t ∈ STATUS_FLOW s ↔ (s, t) ∈ claimedTransitions)
      ∧ ((∃ o', (updateOrderStatus (some oid) (some target) fresh db).1 = .ok (some o')) →
          target ∈ STATUS_FLOW o.orderStatus
          ∧ o.orderStatus ≠ .Completed ∧ o.orderStatus ≠ .Cancelled)
      ∧ ((target ∉ STATUS_FLOW o.orderStatus
            ∨ o.orderStatus = .Completed ∨ o.orderStatus = .Cancelled) →
          (∃ e, (updateOrderStatus (some oid) (some target) fresh db).1 = .error e)
          ∧ (updateOrderStatus (some oid) (some target) fresh db).2 = db) := by
  intro oid target fresh db o h
  refine ⟨by intro s t; cases s <;> cases t <;> decide, ?_, ?_⟩
  · rintro ⟨o', hok⟩
    by_cases hterm : o.orderStatus = .Completed ∨ o.orderStatus = .Cancelled
    · rw [updateOrderStatus_terminal oid target fresh db o h hterm] at hok
      cases hok
    · by_cases hmem : target ∈ STATUS_FLOW o.orderStatus
      · push_neg at hterm
        exact ⟨hmem, hterm.1, hterm.2⟩
      · rw [updateOrderStatus_nonedge oid target fresh db o h hterm hmem] at hok
        cases hok
  · intro hbad
    by_cases hterm : o.orderStatus = .Completed ∨ o.orderStatus = .Cancelled
    · rw [updateOrderStatus_terminal oid target fresh db o h hterm]
      exact ⟨⟨_, rfl⟩, rfl⟩
    · have hmem : target ∉ STATUS_FLOW o.orderStatus := by
        rcases hbad with hb | hb | hb
        · exact hb
        · exact absurd (Or.inl hb) hterm
        · exact absurd (Or.inr hb) hterm
      rw [updateOrderStatus_nonedge oid target fresh db o h hterm hmem]
      exact ⟨⟨_, rfl⟩, rfl⟩

/-- C3 witness: the illegal jump Pending → Delivering on a concrete Paid
order is rejected and the collection is unchanged, by instantiating
`statusUpdate_transition_guard`. -/
theorem statusUpdate_transition_guard_witness :
    (∃ e, (updateOrderStatus (some 1) (some .Delivering) "999999" [sampleOrder]).1 = .error e)
    ∧ (updateOrderStatus (some 1) (some .Delivering) "999999" [sampleOrder]).2 =
        [sampleOrder] :=
  (statusUpdate_transition_guard 1 .Delivering "999999" [sampleOrder] sampleOrder
      (by decide)).2.2 (Or.inl (by decide))

/-- A Pending (thus non-Cooked) Paid order already carrying an assigned
courier: reachable because the socket claim handler never checks the
order's status before assigning. -/
def pendingAssigned : OrderDoc :=
  { sampleOrder with deliveryId := some 5, deliveryVerificationCode := some "222222" }

/-- C3 counterexample: the claim quantifies over every status update, but
the socket `completeOrder` handler updates the status through `save()`,
which bypasses the `pre('findOneAndUpdate')` guard: on a concrete Pending
order it performs Pending → Completed, which is not an edge of
`STATUS_FLOW`, and succeeds. -/
theorem statusGuard_bypassed_by_save :
    (completeOrder ⟨5, .Car⟩ 1 [pendingAssigned] [] []).result = .ok ()
    ∧ (completeOrder ⟨5, .Car⟩ 1 [pendingAssigned] [] []).db =
        [{ pendingAssigned with orderStatus := .Completed }]
    ∧ OrderStatus.Completed ∉ STATUS_FLOW .Pending := by decide

/-- An order whose payment has not been confirmed. -/
def unpaidOrder : OrderDoc := { sampleOrder with id := 2, txStatus := .Pending }

/-- A claimable target: Cooked, delivery-mode, unassigned, Paid. -/
def cookedUnassigned : OrderDoc := { sampleOrder with orderStatus := .Cooked }

/-- C1: on a concrete Cooked, unassigned, Paid delivery order, two
sequential `acceptOrder` attempts by two distinct couriers through the
socket handler of `src/unnamed/part_003` BOTH succeed (the second silently
overwrites the first assignment), because the handler re-reads the order
with a bare `findById` and saves it without re-checking that it is still
unassigned and still Cooked.  The claim — at most one attempt succeeds and
every other attempt gets the "not available" conflict — is violated even
without interleaving. -/
theorem socketAccept_two_claims_both_succeed :
    (socketAcceptOrder ⟨10, .Car⟩ 1 "111111" [cookedUnassigned]).1 =
      .ok { orderCode := "ORD-100001", pickUpVerification := "111111" }
    ∧ (socketAcceptOrder ⟨20, .Car⟩ 1 "222222"
        (socketAcceptOrder ⟨10, .Car⟩ 1 "111111" [cookedUnassigned]).2).1 =
      .ok { orderCode := "ORD-100001", pickUpVerification := "222222" }
    ∧ (socketAcceptOrder ⟨20, .Car⟩ 1 "222222"
        (socketAcceptOrder ⟨10, .Car⟩ 1 "111111" [cookedUnassigned]).2).2 =
      [{ cookedUnassigned with
          deliveryVerificationCode := some "222222", deliveryId := some 20 }] := by
  decide

/-- C2 counterexample: a successful claim through the socket handler sets
the courier reference and a fresh pickup code but does NOT transition the
order's status — it stays Cooked, not Delivering, contradicting the
claimed simultaneous Cooked → Delivering transition. -/
theorem socketAccept_leaves_status_cooked :
    (socketAcceptOrder ⟨10, .Car⟩ 1 "111111" [cookedUnassigned]).1 =
      .ok { orderCode := "ORD-100001", pickUpVerification := "111111" }
    ∧ (socketAcceptOrder ⟨10, .Car⟩ 1 "111111" [cookedUnassigned]).2 =
      [{ cookedUnassigned with
          deliveryVerificationCode := some "111111", deliveryId := some 10 }]
    ∧ ({ cookedUnassigned with
          deliveryVerificationCode := some "111111",
          deliveryId := some 10 } : OrderDoc).orderStatus = .Cooked := by
  decide

/-- C2 (amended): a successful claim write through the socket handler
atomically sets the courier reference and a fresh pickup verification code
on the loaded order, and leaves every other field — in particular the
order status — unchanged; the Cooked → Delivering transition is performed
later by pickup confirmation, not by the claim. -/
theorem socketAccept_success_effects :
    ∀ (c : Courier) (orderId : Nat) (fresh : String) (db : List OrderDoc)
      (r : AcceptPayload) (db' : List OrderDoc),
      socketAcceptOrder c orderId fresh db = (.ok r, db') →
      ∃ o, dbFindOne false (idQuery orderId) db = some o
        ∧ db' = saveDoc db
            { o with deliveryVerificationCode := some fresh, deliveryId := some c.id }
        ∧ ({ o with
              deliveryVerificationCode := some fresh,
              deliveryId := some c.id } : OrderDoc).orderStatus = o.orderStatus := by
  intro c orderId fresh db r db' h
  simp only [socketAcceptOrder] at h
  cases hc : dbFindOne false (courierActiveQuery c.id) db with
  | some x => simp [hc] at h
  | none =>
    simp only [hc] at h
    cases ho : dbFindOne false (idQuery orderId) db with
    | none => simp [ho] at h
    | some o =>
      simp only [ho] at h
      by_cases hv : o.deliveryVehicle ≠ some c.deliveryMethod
      · rw [if_pos hv] at h
        simp at h
      · rw [if_neg hv] at h
        injection h with h₁ h₂
        exact ⟨o, rfl, h₂.symm, rfl⟩

/-- C2 witness: instantiating `socketAccept_success_effects` on the
concrete successful claim of courier 10. -/
theorem socketAccept_success_effects_witness :
    ∃ o, dbFindOne false (idQuery 1) [cookedUnassigned] = some o
      ∧ (socketAcceptOrder ⟨10, .Car⟩ 1 "111111" [cookedUnassigned]).2 =
          saveDoc [cookedUnassigned]
            { o with deliveryVerificationCode := some "111111", deliveryId := some 10 }
      ∧ ({ o with
            deliveryVerificationCode := some "111111",
            deliveryId := some 10 } : OrderDoc).orderStatus = o.orderStatus :=
  socketAccept_success_effects ⟨10, .Car⟩ 1 "111111" [cookedUnassigned]
    { orderCode := "ORD-100001", pickUpVerification := "111111" }
    (socketAcceptOrder ⟨10, .Car⟩ 1 "111111" [cookedUnassigned]).2 (by decide)

/-- C5 sample input: a Cooked, assigned, Paid delivery order whose pickup
code is set. -/
def cookedAssigned : OrderDoc :=
  { sampleOrder with
    orderStatus := .Cooked, deliveryId := some 1,
    deliveryVerificationCode := some "654321" }

/-- C5 counterexample: `pickUpOrder` never reads the authenticated
requester, so requester 2 — who is not the assigned courier 1 — succeeds
with the correct code, contradicting the claimed requirement that the
requester be the assigned courier. -/
theorem pickUp_ignores_requester :
    cookedAssigned.deliveryId = some 1
    ∧ (pickUpOrder 2 (some 1) (some "654321") [cookedAssigned]).1 = .ok ()
    ∧ (pickUpOrder 2 (some 1) (some "654321") [cookedAssigned]).2 =
        [{ cookedAssigned with orderStatus := .Delivering }] := by decide

/-- Success run of `pickUpOrder`: when the order is found (Paid-visible),
is a delivery order in Cooked status and carries exactly the submitted
pickup code, the handler transitions it to Delivering through the guarded
update. -/
lemma pickUpOrder_run_success (requester oid : Nat) (c : String) (db : List OrderDoc)
    (o : OrderDoc) (ho : dbFindOne false (idQuery oid) db = some o)
    (h1 : o.typeOfOrder = .Delivery) (h2 : o.orderStatus = .Cooked)
    (h3 : o.deliveryVerificationCode = some c) :
    pickUpOrder requester (some oid) (some c) db =
      (.ok (), replaceFirst (idQuery oid)
        (applyUpdate { orderStatus := some .Delivering, deliveryId := none,
                       deliveryVerificationCode := none }) db) := by
  obtain ⟨t, ht⟩ : ∃ t, db.find? (idQuery oid) = some t := by
    rw [← Option.isSome_iff_exists, List.find?_isSome]
    have hmem := List.mem_of_find?_eq_some ho
    have hp := List.find?_some ho
    rw [Bool.and_eq_true] at hp
    exact ⟨o, hmem, hp.1⟩
  simp [pickUpOrder, ho, h1, h2, h3, findOneAndUpdate, STATUS_FLOW, ht]

/-- C5 (amended): pickup confirmation succeeds iff the order is a
Paid-visible delivery order in Cooked status and the submitted code equals
the order's pickup verification code — the requester's identity and the
courier assignment are not checked; on success the order's status becomes
Delivering (the only field changed), and on any error the collection is
unchanged. -/
theorem pickUpOrder_contract :
    ∀ (requester oid : Nat) (c : String) (db : List OrderDoc),
      ((∃ u, (pickUpOrder requester (some oid) (some c) db).1 = .ok u) ↔
        ∃ o, dbFindOne false (idQuery oid) db = some o
          ∧ o.typeOfOrder = .Delivery ∧ o.orderStatus = .Cooked
          ∧ o.deliveryVerificationCode = some c)
      ∧ (∀ e, (pickUpOrder requester (some oid) (some c) db).1 = .error e →
          (pickUpOrder requester (some oid) (some c) db).2 = db)
      ∧ ((∃ u, (pickUpOrder requester (some oid) (some c) db).1 = .ok u) →
          (pickUpOrder requester (some oid) (some c) db).2 =
            replaceFirst (idQuery oid)
              (applyUpdate { orderStatus := some .Delivering, deliveryId := none,
                             deliveryVerificationCode := none }) db) := by
  intro requester oid c db
  cases ho : dbFindOne false (idQuery oid) db with
  | none =>
    have hrun : pickUpOrder requester (some oid) (some c) db =
        (.error "Order not found.", db) := by
      simp [pickUpOrder, ho]
    rw [hrun]
    simp [ho]
  | some o =>
    by_cases h1 : o.typeOfOrder = .Delivery
    · by_cases h2 : o.orderStatus = .Cooked
      · by_cases h3 : o.deliveryVerificationCode = some c
        · rw [pickUpOrder_run_success requester oid c db o ho h1 h2 h3]
          simp [ho, h1, h2, h3]
        · have hnd : o.orderStatus ≠ .Delivering := by rw [h2]; decide
          have hrun : pickUpOrder requester (some oid) (some c) db =
              (.error "Invalid pickup verification code.", db) := by
            simp [pickUpOrder, ho, h1, h2, h3, hnd]
          rw [hrun]
          simp [ho, h3]
      · by_cases hnd : o.orderStatus = .Delivering
        · have hrun : pickUpOrder requester (some oid) (some c) db =
              (.error "Order has already been picked up.", db) := by
            simp [pickUpOrder, ho, h1, hnd]
          rw [hrun]
          simp [ho, h2]
        · have hrun : pickUpOrder requester (some oid) (some c) db =
              (.error "Order must be in Cooked status to be picked up.", db) := by
            simp [pickUpOrder, ho, h1, h2, hnd]
          rw [hrun]
          simp [ho, h2]
    · have hrun : pickUpOrder requester (some oid) (some c) db =
          (.error "Order is not a delivery order.", db) := by
        simp [pickUpOrder, ho, h1]
      rw [hrun]
      simp [ho, h1]

/-- C5 witness: instantiating `pickUpOrder_contract` on the concrete
Cooked assigned order with the matching code (requester 3, assignee 1). -/
theorem pickUpOrder_contract_witness :
    ∃ u, (pickUpOrder 3 (some 1) (some "654321") [cookedAssigned]).1 = .ok u :=
  (pickUpOrder_contract 3 1 "654321" [cookedAssigned]).1.mpr
    ⟨cookedAssigned, by decide, by decide, by decide, by decide⟩

/-- A Cooked, Paid order assigned to courier 5: reachable, since the
socket claim handler assigns without changing the status. -/
def cookedAssigned5 : OrderDoc :=
  { sampleOrder with
    orderStatus := .Cooked, deliveryId := some 5,
    deliveryVerificationCode := some "654321" }

/-- C6 counterexample: the socket `completeOrder` handler accepts no
verification code at all and never checks that the status is Delivering:
the assigned courier completes a Cooked order, so the claim's necessary
conditions (status Delivering, submitted code equals the delivery code)
are violated by a successful run. -/
theorem completeOrder_skips_code_and_status :
    cookedAssigned5.orderStatus = .Cooked
    ∧ (completeOrder ⟨5, .Car⟩ 1 [cookedAssigned5] [(5, (1, 7))] [(5, ⟨9, 38⟩)]).result
        = .ok ()
    ∧ (completeOrder ⟨5, .Car⟩ 1 [cookedAssigned5] [(5, (1, 7))] [(5, ⟨9, 38⟩)]).db =
        [{ cookedAssigned5 with orderStatus := .Completed }]
    ∧ (completeOrder ⟨5, .Car⟩ 1 [cookedAssigned5] [(5, (1, 7))] [(5, ⟨9, 38⟩)]).activeDeliveryOrders = []
    ∧ (completeOrder ⟨5, .Car⟩ 1 [cookedAssigned5] [(5, (1, 7))] [(5, ⟨9, 38⟩)]).lastDeliveryLocations = [] := by
  decide

/-- C6 (amended): delivery completion through the socket `completeOrder`
handler succeeds iff the order is Paid-visible and the requester is its
assigned courier — no verification code and no status precondition exist;
on success the order's status becomes Completed and the courier's
active-assignment and last-location cache entries are released; on any
error nothing changes. -/
theorem completeOrder_contract :
    ∀ (c : Courier) (oid : Nat) (db : List OrderDoc)
      (active : List (Nat × ActiveEntry)) (lastLoc : List (Nat × Coord)),
      ((completeOrder c oid db active lastLoc).result = .ok () ↔
        ∃ o, dbFindOne false (idQuery oid) db = some o ∧ o.deliveryId = some c.id)
      ∧ ((completeOrder c oid db active lastLoc).result = .ok () →
          ∃ o, dbFindOne false (idQuery oid) db = some o
            ∧ (completeOrder c oid db active lastLoc).db =
                saveDoc db { o with orderStatus := .Completed }
            ∧ (completeOrder c oid db active lastLoc).activeDeliveryOrders =
                cacheDelete active c.id
            ∧ (completeOrder c oid db active lastLoc).lastDeliveryLocations =
                lastLoc.filter (fun e => !(e.1 == c.id)))
      ∧ (∀ e, (completeOrder c oid db active lastLoc).result = .error e →
          (completeOrder c oid db active lastLoc).db = db
          ∧ (completeOrder c oid db active lastLoc).activeDeliveryOrders = active
          ∧ (completeOrder c oid db active lastLoc).lastDeliveryLocations = lastLoc) := by
  intro c oid db active lastLoc
  cases ho : dbFindOne false (idQuery oid) db with
  | none =>
    have hrun : completeOrder c oid db active lastLoc =
        { result := .error "Cannot complete this order.", db := db,
          activeDeliveryOrders := active, lastDeliveryLocations := lastLoc } := by
      simp [completeOrder, ho]
    rw [hrun]
    simp [ho]
  | some o =>
    cases hdel : o.deliveryId with
    | none =>
      have hrun : completeOrder c oid db active lastLoc =
          { result := .error "TypeError: cannot read toString of undefined", db := db,
            activeDeliveryOrders := active, lastDeliveryLocations := lastLoc } := by
        simp [completeOrder, ho, hdel]
      rw [hrun]
      simp [ho, hdel]
    | some d =>
      by_cases hd : d = c.id
      · have hrun : completeOrder c oid db active lastLoc =
            { result := .ok ()
              db := saveDoc db { o with orderStatus := .Completed }
              activeDeliveryOrders := cacheDelete active c.id
              lastDeliveryLocations := lastLoc.filter (fun e => !(e.1 == c.id)) } := by
          simp [completeOrder, ho, hdel, hd]
        rw [hrun]
        refine ⟨?_, ?_, ?_⟩
        · constructor
          · intro _
            exact ⟨o, rfl, by rw [hdel, hd]⟩
          · intro _
            rfl
        · intro _
          exact ⟨o, rfl, rfl, rfl, rfl⟩
        · intro e he
          cases he
      · have hrun : completeOrder c oid db active lastLoc =
            { result := .error "Cannot complete this order.", db := db,
              activeDeliveryOrders := active, lastDeliveryLocations := lastLoc } := by
          simp [completeOrder, ho, hdel, hd]
        rw [hrun]
        simp [ho, hdel, hd]

/-- A Delivering, Paid order assigned to courier 5. -/
def delivering5 : OrderDoc :=
  { sampleOrder with
    orderStatus := .Delivering, deliveryId := some 5,
    deliveryVerificationCode := some "654321" }

/-- C6 witness: instantiating `completeOrder_contract` on a concrete
Delivering order completed by its assigned courier. -/
theorem completeOrder_contract_witness :
    ∃ o, dbFindOne false (idQuery 1) [delivering5] = some o
      ∧ (completeOrder ⟨5, .Car⟩ 1 [delivering5] [(5, (1, 7))] []).db =
          saveDoc [delivering5] { o with orderStatus := .Completed }
      ∧ (completeOrder ⟨5, .Car⟩ 1 [delivering5] [(5, (1, 7))] []).activeDeliveryOrders =
          cacheDelete [(5, (1, 7))] 5
      ∧ (completeOrder ⟨5, .Car⟩ 1 [delivering5] [(5, (1, 7))] []).lastDeliveryLocations =
          List.filter (fun e => !(e.1 == 5)) [] :=
  (completeOrder_contract ⟨5, .Car⟩ 1 [delivering5] [(5, (1, 7))] []).2.1 (by decide)

/-- C8: on a concrete existing order, a provider-failure callback does NOT
persist a Failed payment status: `chapaWebhook` assigns `"Failed"` but the
`transactionSchema` enum only admits Pending and Paid, so `save()` fails
validation, the webhook answers HTTP 500 and the order stays Pending; the
success callback persists Paid with the provider reference and notifies
the manager, as claimed. -/
theorem chapaWebhook_failed_enum_bug :
    chapaWebhook true 2 "ref-9" "failed" true [unpaidOrder] =
      { httpStatus := 500, db := [unpaidOrder], managerNotified := false }
    ∧ chapaWebhook true 2 "ref-9" "success" true [unpaidOrder] =
      { httpStatus := 200,
        db := [{ unpaidOrder with txStatus := .Paid, txRefId := some "ref-9" }],
        managerNotified := true } := by decide

/-- C4 counterexample: the claim says every read that passes the override
flag also sees unpaid orders, but a `find` (multi-document) read with
`bypassPaidFilter` still hides an unpaid order, because the first
registered `pre('find')` hook adds the Paid condition unconditionally. -/
theorem bypassed_find_still_paid_only :
    unpaidOrder.txStatus ≠ .Paid
    ∧ dbFind true (fun _ => true) [unpaidOrder] = [] := by decide

/-- C4 (amended): reads without the override flag surface only Paid
orders; the `bypassPaidFilter` override exposes unpaid orders for
single-document reads (`findOne`/`findById`, which is what the
payment-confirmation callback uses), but multi-document `find` reads
remain restricted to Paid orders even with the flag. -/
theorem read_visibility_contract :
    (∀ (p : OrderDoc → Bool) (db : List OrderDoc) (o : OrderDoc),
      o ∈ dbFind false p db → o.txStatus = .Paid)
    ∧ (∀ (p : OrderDoc → Bool) (db : List OrderDoc) (o : OrderDoc),
      dbFindOne false p db = some o → o.txStatus = .Paid)
    ∧ (∀ o : OrderDoc, orderVisible .findOne true o = true)
    ∧ (∀ (p : OrderDoc → Bool) (db : List OrderDoc) (o : OrderDoc),
      o ∈ dbFind true p db → o.txStatus = .Paid) := by
  refine ⟨?_, ?_, ?_, ?_⟩
  · intro p db o hmem
    have h := (List.mem_filter.mp hmem).2
    rw [Bool.and_eq_true] at h
    exact orderVisible_false_paid .find o h.2
  · intro p db o hfind
    have h := List.find?_some hfind
    rw [Bool.and_eq_true] at h
    exact orderVisible_false_paid .findOne o h.2
  · intro o
    simp [orderVisible]
  · intro p db o hmem
    have h := (List.mem_filter.mp hmem).2
    rw [Bool.and_eq_true] at h
    exact orderVisible_find_paid true o h.2

/-- C4 witness: instantiating `read_visibility_contract` on a concrete
one-order collection. -/
theorem read_visibility_contract_witness :
    sampleOrder.txStatus = .Paid ∧ OrderDoc.txStatus unpaidOrder ≠ .Paid := by
  constructor
  · exact read_visibility_contract.1 (fun _ => true) [sampleOrder] sampleOrder (by decide)
  · decide

section RestartRebuild

/-- Setting a key absent from the cache appends the entry. -/
lemma cacheSet_of_fresh (c : List (Nat × ActiveEntry)) (k : Nat) (v : ActiveEntry)
    (h : cacheGet c k = none) : cacheSet c k v = c ++ [(k, v)] := by
  simp [cacheSet, cacheHas, h]

/-- Looking up a key that is absent from the front part of an appended
cache reads the appended entry. -/
lemma cacheGet_append_self (c : List (Nat × ActiveEntry)) (k : Nat) (v : ActiveEntry)
    (h : cacheGet c k = none) : cacheGet (c ++ [(k, v)]) k = some v := by
  induction c with
  | nil => simp [cacheGet]
  | cons e rest ih =>
    by_cases he : e.1 = k
    · simp [cacheGet, he] at h
    · simp only [cacheGet, List.cons_append, he, if_false] at h ⊢
      exact ih h

/-- Appending an entry under a different key does not change a lookup. -/
lemma cacheGet_append_ne (c : List (Nat × ActiveEntry)) (k k' : Nat) (v : ActiveEntry)
    (h : k' ≠ k) : cacheGet (c ++ [(k, v)]) k' = cacheGet c k' := by
  induction c with
  | nil => simp [cacheGet, Ne.symm h]
  | cons e rest ih =>
    by_cases he : e.1 = k'
    · simp [cacheGet, he]
    · simp only [cacheGet, List.cons_append, he, if_false]
      exact ih

/-- Overwriting the entries under one key does not change lookups of
another key. -/
lemma cacheGet_mapReplace (c : List (Nat × ActiveEntry)) (k k' : Nat) (v : ActiveEntry)
    (h : k' ≠ k) :
    cacheGet (c.map (fun e => if e.1 = k then (k, v) else e)) k' = cacheGet c k' := by
  induction c with
  | nil => rfl
  | cons e rest ih =>
    by_cases he : e.1 = k
    · rw [List.map_cons, if_pos he]
      show (if k = k' then some v else _) = _
      rw [if_neg (Ne.symm h)]
      show _ = (if e.1 = k' then some e.2 else cacheGet rest k')
      rw [if_neg (he ▸ Ne.symm h : ¬e.1 = k')]
      exact ih
    · rw [List.map_cons, if_neg he]
      show (if e.1 = k' then some e.2 else _) = (if e.1 = k' then some e.2 else _)
      by_cases he' : e.1 = k'
      · rw [if_pos he', if_pos he']
      · rw [if_neg he', if_neg he']
        exact ih

/-- `Map.set` under one key does not change lookups of another key. -/
lemma cacheGet_set_ne (c : List (Nat × ActiveEntry)) (k k' : Nat) (v : ActiveEntry)
    (h : k' ≠ k) : cacheGet (cacheSet c k v) k' = cacheGet c k' := by
  unfold cacheSet
  split
  · exact cacheGet_mapReplace c k k' v h
  · exact cacheGet_append_ne c k k' v h

/-- `loadActive` does not touch cache keys that none of the loaded orders
carries. -/
lemma loadActive_get_untouched (l : List OrderDoc) (c : List (Nat × ActiveEntry)) (k : Nat)
    (h : ∀ o ∈ l, ∀ d, o.deliveryId = some d → d ≠ k) :
    cacheGet (loadActive l c) k = cacheGet c k := by
  induction l generalizing c with
  | nil => rfl
  | cons o rest ih =>
    cases hd : o.deliveryId with
    | none =>
      simp only [loadActive, hd]
      exact ih c (fun o' ho' => h o' (List.mem_cons_of_mem o ho'))
    | some d =>
      simp only [loadActive, hd]
      rw [ih (cacheSet c d (o.id, o.userId)) (fun o' ho' => h o' (List.mem_cons_of_mem o ho'))]
      exact cacheGet_set_ne c d k (o.id, o.userId)
        (fun hk => h o (List.mem_cons_self o rest) d hd (hk ▸ rfl))

/-- Main induction for the rebuilt cache: loading orders whose courier
keys are all present, pairwise distinct and fresh w.r.t. the cache adds
exactly one entry per order, retrievable under the courier's key. -/
lemma loadActive_spec (l : List OrderDoc) (c : List (Nat × ActiveEntry))
    (h1 : ∀ o ∈ l, o.deliveryId.isSome)
    (h2 : (l.filterMap OrderDoc.deliveryId).Nodup)
    (h3 : ∀ o ∈ l, ∀ d, o.deliveryId = some d → cacheGet c d = none) :
    (loadActive l c).length = c.length + l.length
    ∧ ∀ o ∈ l, ∀ d, o.deliveryId = some d →
        cacheGet (loadActive l c) d = some (o.id, o.userId) := by
  induction l generalizing c with
  | nil => exact ⟨rfl, by simp⟩
  | cons o rest ih =>
    obtain ⟨d0, hd0⟩ := Option.isSome_iff_exists.mp (h1 o (List.mem_cons_self o rest))
    have hfresh0 : cacheGet c d0 = none := h3 o (List.mem_cons_self o rest) d0 hd0
    have hset : cacheSet c d0 (o.id, o.userId) = c ++ [(d0, (o.id, o.userId))] :=
      cacheSet_of_fresh c d0 (o.id, o.userId) hfresh0
    have hfm : (o :: rest).filterMap OrderDoc.deliveryId =
        d0 :: rest.filterMap OrderDoc.deliveryId := by
      simp [List.filterMap_cons, hd0]
    rw [hfm, List.nodup_cons] at h2
    have h1' : ∀ o' ∈ rest, o'.deliveryId.isSome :=
      fun o' ho' => h1 o' (List.mem_cons_of_mem o ho')
    have h3' : ∀ o' ∈ rest, ∀ d, o'.deliveryId = some d →
        cacheGet (cacheSet c d0 (o.id, o.userId)) d = none := by
      intro o' ho' d hd
      have hne : d ≠ d0 := by
        intro hcontra
        exact h2.1 (hcontra ▸ List.mem_filterMap.mpr ⟨o', ho', hd⟩)
      rw [hset, cacheGet_append_ne c d0 d (o.id, o.userId) hne]
      exact h3 o' (List.mem_cons_of_mem o ho') d hd
    obtain ⟨ihlen, ihget⟩ := ih (cacheSet c d0 (o.id, o.userId)) h1' h2.2 h3'
    have hstep : loadActive (o :: rest) c =
        loadActive rest (cacheSet c d0 (o.id, o.userId)) := by
      simp [loadActive, hd0]
    constructor
    · rw [hstep, ihlen, hset]
      simp [List.length_append]
      omega
    · intro o' ho' d hd
      rcases List.mem_cons.mp ho' with heq | hmem
      · subst heq
        have hdd : d = d0 := by
          rw [hd0] at hd
          exact (Option.some.inj hd).symm
        subst hdd
        rw [hstep]
        have huntouched : ∀ o'' ∈ rest, ∀ d', o''.deliveryId = some d' → d' ≠ d := by
          intro o'' ho'' d' hd'
          intro hcontra
          exact h2.1 (hcontra ▸ List.mem_filterMap.mpr ⟨o'', ho'', hd'⟩)
        rw [loadActive_get_untouched rest (cacheSet c d (o'.id, o'.userId)) d huntouched]
        rw [cacheSet_of_fresh c d (o'.id, o'.userId) hfresh0]
        exact cacheGet_append_self c d (o'.id, o'.userId) hfresh0
      · rw [hstep]
        exact ihget o' hmem d hd

/-- C9 (amended): after a restart with `K` Delivering, Paid orders whose
assigned couriers are pairwise distinct, the rebuilt cache holds exactly
`K` entries; each such courier's subsequent connect (with any valid
vehicle) seeds its active assignment and receives exactly one
`requestLocationUpdate`.  (The claim's unconditional form fails when two
Delivering orders share a courier, or when one is unpaid: the duplicate
key overwrites and the Paid read filter skips — see the
counterexample.) -/
theorem restart_rebuild_contract :
    ∀ (db : List OrderDoc),
      (∀ o ∈ db, o.orderStatus = .Delivering ∧ o.txStatus = .Paid ∧ o.deliveryId.isSome) →
      (db.filterMap OrderDoc.deliveryId).Nodup →
      (populateActiveOrders db).length = db.length
      ∧ (∀ o ∈ db, ∀ (d : Nat) (v : Vehicle), o.deliveryId = some d →
          courierConnect (populateActiveOrders db) d (some v) =
            { seededOrder := some (o.id, o.userId), locationRequests := 1 }) := by
  intro db hall hnodup
  have hfilter : db.filter deliveringQuery = db := by
    rw [List.filter_eq_self]
    intro o ho
    obtain ⟨hs, hp, hid⟩ := hall o ho
    simp [deliveringQuery, orderVisible, hs, hp, hid]
  have hspec := loadActive_spec db []
    (fun o ho => (hall o ho).2.2) hnodup (fun _ _ _ _ => rfl)
  constructor
  · show (loadActive (db.filter deliveringQuery) []).length = db.length
    rw [hfilter, hspec.1]
    simp
  · intro o ho d v hd
    have hget : cacheGet (populateActiveOrders db) d = some (o.id, o.userId) := by
      show cacheGet (loadActive (db.filter deliveringQuery) []) d = some (o.id, o.userId)
      rw [hfilter]
      exact hspec.2 o ho d hd
    simp [courierConnect, hget]

/-- A Delivering Paid order assigned to courier 5. -/
def deliveringA : OrderDoc :=
  { sampleOrder with orderStatus := .Delivering, deliveryId := some 5 }

/-- A second Delivering Paid order assigned to the same courier 5. -/
def deliveringB : OrderDoc :=
  { sampleOrder with
    id := 2, userId := 8, orderStatus := .Delivering, deliveryId := some 5 }

/-- A Delivering Paid order assigned to the distinct courier 6. -/
def deliveringC : OrderDoc :=
  { sampleOrder with
    id := 2, userId := 8, orderStatus := .Delivering, deliveryId := some 6 }

/-- C9 counterexample: K = 2 Delivering orders, each with an assigned
courier, but the same courier on both — the rebuilt cache holds one entry,
not two, because `Map.set` overwrites the first assignment. -/
theorem populate_duplicate_courier :
    deliveringA.orderStatus = .Delivering ∧ deliveringB.orderStatus = .Delivering
    ∧ deliveringA.deliveryId = some 5 ∧ deliveringB.deliveryId = some 5
    ∧ [deliveringA, deliveringB].length = 2
    ∧ (populateActiveOrders [deliveringA, deliveringB]).length = 1 := by decide

/-- C9 witness: instantiating `restart_rebuild_contract` on two Delivering
orders with distinct couriers 5 and 6. -/
theorem restart_rebuild_contract_witness :
    (populateActiveOrders [deliveringA, deliveringC]).length = 2
    ∧ courierConnect (populateActiveOrders [deliveringA, deliveringC]) 5 (some .Car) =
        { seededOrder := some (1, 7), locationRequests := 1 }
    ∧ courierConnect (populateActiveOrders [deliveringA, deliveringC]) 6 (some .Motor) =
        { seededOrder := some (2, 8), locationRequests := 1 } := by
  have h := restart_rebuild_contract [deliveringA, deliveringC] (by decide) (by decide)
  refine ⟨h.1, ?_, ?_⟩
  · exact h.2 deliveringA (by simp) 5 .Car (by decide)
  · exact h.2 deliveringC (by simp) 6 .Motor (by decide)

end RestartRebuild

/-- C10: the standalone fee-estimation endpoint never returns a fee.  For
every combination of restaurant lookup result, vehicle, destination and
oracle response, `estimateDeliveryFee` returns an error: the vehicle is
forwarded under the wrong key, so `computeDeliveryFee` sees no vehicle and
the rate lookup (or an earlier destination/oracle check) fails. -/
theorem estimateDeliveryFee_always_errors :
    ∀ (rid : Option Nat) (rloc : Option Coord) (vt : Option String)
      (dest : Option Coord) (om od : Option ℚ),
      ∃ e, estimateDeliveryFee rid rloc vt dest om od = .error e := by
  intro rid rloc vt dest om od
  match rid with
  | none => exact ⟨_, rfl⟩
  | some rid =>
    match rloc with
    | none => exact ⟨_, rfl⟩
    | some rloc =>
      simp only [estimateDeliveryFee]
      split
      · exact ⟨_, rfl⟩
      · obtain ⟨e, he⟩ := computeDeliveryFee_none_vehicle dest om od
        rw [he]
        exact ⟨e, rfl⟩
